import Mathlib

/-!
# Verification of the terrain-gen rendering demo

A shallow embedding, in Lean 4, of the parts of the `terrain-gen` Rust
repository that its specification makes checkable claims about:

* procedural mesh generation (`src/vertex.rs`: `Mesh::generate_plane`,
  `Mesh::generate_cube`);
* the first-person camera rig and its controller
  (`src/camera.rs`: `CameraController::update_camera`,
  `CameraController::handle_keyboard`, `Camera::default`);
* entity transforms (`src/entity.rs`: `Entity::get_model_matrix`);
* the frame loop (`src/app.rs`: `AppState::update`, `AppState::resize`,
  `AppState::render`).

Embedding conventions:

* `f32` values are modelled as exact numbers: rationals (`ℚ`) where the
  code only ever adds, multiplies and divides concrete constants (mesh
  generation, model matrices), and reals (`ℝ`) where the code calls the
  transcendental functions `sin`, `cos`, `sqrt` or uses `π` (camera,
  light orbit).  IEEE rounding is not modelled; the claims under study
  are about exact structural facts (element counts, field writes, state
  flags) or about ranges with slack much larger than `f32` rounding
  error.
* Rust's `%` on floats is the sign-preserving remainder (the sign of the
  result follows the dividend); it is modelled by `rustRem` below via
  truncated division.
* `u32` sizes and indices are modelled as `ℕ` (no overflow modelling;
  the claims under study are counting claims).
* Code that talks to the window system or the GPU is modelled by its
  effect on the value-level state plus, for `render`, an explicit log of
  the GPU operations it issues.
-/

/-! ## Rust numeric primitives -/

/-- Truncation toward zero of a real number, as in Rust float-to-int
truncation and in the definition of the float remainder. -/
noncomputable def rtruncR (x : ℝ) : ℤ := if 0 ≤ x then ⌊x⌋ else ⌈x⌉

/-- Rust's `%` on floats: the IEEE `fmod`-style remainder
`a - b * trunc(a / b)`, whose sign follows the dividend `a`. -/
noncomputable def rustRem (a b : ℝ) : ℝ := a - b * (rtruncR (a / b) : ℝ)

/-- `num_traits::clamp` (re-exported by cgmath), as used by
`CameraController::update_camera`:
`if input < min { min } else if input > max { max } else { input }`. -/
noncomputable def rustClamp (input min max : ℝ) : ℝ :=
  if input < min then min else if input > max then max else input

/-! ## Mesh generation (`src/vertex.rs`)

Vertices hold exact rational coordinates; a `Mesh` is the pair of its
vertex list and its (`u32`, here `ℕ`) index list, and the two
generators append to an existing mesh exactly as the Rust methods do. -/

/-- `Vertex` (src/vertex.rs): homogeneous position, color, homogeneous
normal, texture coordinates. -/
structure Vertex where
  pos : ℚ × ℚ × ℚ × ℚ
  color : ℚ × ℚ × ℚ × ℚ
  normal : ℚ × ℚ × ℚ × ℚ
  tex_coords : ℚ × ℚ
deriving DecidableEq

/-- `Mesh` (src/vertex.rs): vertex list plus index list. -/
structure Mesh where
  vertices : List Vertex
  indices : List ℕ
deriving DecidableEq

namespace Mesh

/-- The empty mesh, the state the generators are meant to start from. -/
def empty : Mesh := ⟨[], []⟩

/-- `Mesh::generate_plane` (src/vertex.rs lines 58-93): appends an
`(R+1) × (R+1)` grid of vertices over the unit square at `z = 0` and
`6·R²` indices (two triangles per grid cell).

The Rust code computes `resolution_recip = 1.0 / resolution as f32`;
for `resolution = 0` that reciprocal is the IEEE infinity and the single
generated vertex has NaN x/y coordinates, while in `ℚ` division by zero
yields `0`.  The claims checked below only count elements at
`resolution = 0`, so the two semantics agree on everything stated. -/
def generate_plane (m : Mesh) (resolution : ℕ) : Mesh :=
  let resolution_recip : ℚ := 1 / (resolution : ℚ)
  let vertices : List (ℚ × ℚ × ℚ) :=
    (List.range (resolution + 1)).flatMap fun x =>
      (List.range (resolution + 1)).map fun (y : ℕ) =>
        ((x : ℚ) * resolution_recip, (y : ℚ) * resolution_recip, 0)
  let indices : List ℕ :=
    (List.range resolution).flatMap fun x =>
      (List.range resolution).flatMap fun y =>
        let idx_0 := y * (resolution + 1) + x
        let idx_1 := idx_0 + 1
        let idx_2 := (y + 1) * (resolution + 1) + x
        let idx_3 := idx_2 + 1
        [idx_0, idx_2, idx_1, idx_2, idx_3, idx_1]
  let vertices_raw : List Vertex := vertices.map fun v =>
    { pos := (v.1, v.2.1, v.2.2, 1)
      color := (1, 1, 1, 1)
      normal := (0, 0, 1, 1)
      tex_coords := (v.1, v.2.1) }
  { vertices := m.vertices ++ vertices_raw, indices := m.indices ++ indices }

/-- A cube vertex as written in `Mesh::generate_cube`'s literal array:
position, normal, texture coordinates (the color is `(1,1,1,1)` on every
entry). -/
def cubeVertex (px py pz nx ny nz tu tv : ℚ) : Vertex :=
  { pos := (px, py, pz, 1)
    color := (1, 1, 1, 1)
    normal := (nx, ny, nz, 1)
    tex_coords := (tu, tv) }

/-- `Mesh::generate_cube` (src/vertex.rs lines 95-253): appends the
literal 24-vertex, 36-index cube. -/
def generate_cube (m : Mesh) : Mesh :=
  let vertex_data : List Vertex :=
    [ cubeVertex (-1) (-1) 1 0 0 1 0 0
    , cubeVertex 1 (-1) 1 0 0 1 1 0
    , cubeVertex 1 1 1 0 0 1 0 1
    , cubeVertex (-1) 1 1 0 0 1 1 1
    , cubeVertex (-1) 1 (-1) 0 0 (-1) 0 0
    , cubeVertex 1 1 (-1) 0 0 (-1) 1 0
    , cubeVertex 1 (-1) (-1) 0 0 (-1) 0 1
    , cubeVertex (-1) (-1) (-1) 0 0 (-1) 1 1
    , cubeVertex 1 (-1) (-1) 1 0 0 0 0
    , cubeVertex 1 1 (-1) 1 0 0 1 0
    , cubeVertex 1 1 1 1 0 0 0 1
    , cubeVertex 1 (-1) 1 1 0 0 1 1
    , cubeVertex (-1) (-1) 1 (-1) 0 0 0 0
    , cubeVertex (-1) 1 1 (-1) 0 0 1 0
    , cubeVertex (-1) 1 (-1) (-1) 0 0 0 1
    , cubeVertex (-1) (-1) (-1) (-1) 0 0 1 1
    , cubeVertex 1 1 (-1) 0 1 0 0 0
    , cubeVertex (-1) 1 (-1) 0 1 0 1 0
    , cubeVertex (-1) 1 1 0 1 0 0 1
    , cubeVertex 1 1 1 0 1 0 1 1
    , cubeVertex 1 (-1) 1 0 (-1) 0 0 0
    , cubeVertex (-1) (-1) 1 0 (-1) 0 1 0
    , cubeVertex (-1) (-1) (-1) 0 (-1) 0 0 1
    , cubeVertex 1 (-1) (-1) 0 (-1) 0 1 1 ]
  let index_data : List ℕ :=
    [ 0, 1, 2, 2, 3, 0
    , 4, 5, 6, 6, 7, 4
    , 8, 9, 10, 10, 11, 8
    , 12, 13, 14, 14, 15, 12
    , 16, 17, 18, 18, 19, 16
    , 20, 21, 22, 22, 23, 20 ]
  { vertices := m.vertices ++ vertex_data, indices := m.indices ++ index_data }

end Mesh

/-- `Mesh::generate_cube` applied to the empty mesh: the cube geometry
exactly as the demo uploads it. -/
def cubeMesh : Mesh := Mesh.generate_cube Mesh.empty

/-! ## Camera rig (`src/camera.rs`)

The camera and its controller hold `f32` state; modelled over `ℝ`
because `update_camera` calls `sin`, `cos` and `sqrt` and its constants
involve `π`. -/

/-- A 3-component vector (cgmath `Vector3<f32>`), over an exact scalar
type: `ℝ` for the camera and light, `ℚ` for entity transforms. -/
@[ext]
structure Vec3 (α : Type) where
  x : α
  y : α
  z : α
deriving DecidableEq

namespace Vec3

variable {α : Type} [CommRing α]

def add (v w : Vec3 α) : Vec3 α := ⟨v.x + w.x, v.y + w.y, v.z + w.z⟩

def smul (c : α) (v : Vec3 α) : Vec3 α := ⟨c * v.x, c * v.y, c * v.z⟩

/-- cgmath `Vector3::cross`. -/
def cross (v w : Vec3 α) : Vec3 α :=
  ⟨v.y * w.z - v.z * w.y, v.z * w.x - v.x * w.z, v.x * w.y - v.y * w.x⟩

def neg (v : Vec3 α) : Vec3 α := ⟨-v.x, -v.y, -v.z⟩

def zero : Vec3 α := ⟨0, 0, 0⟩

def unit_y : Vec3 α := ⟨0, 1, 0⟩

def unit_z : Vec3 α := ⟨0, 0, 1⟩

/-- cgmath `InnerSpace::magnitude` (real-valued: uses `sqrt`). -/
noncomputable def magnitude (v : Vec3 ℝ) : ℝ :=
  Real.sqrt (v.x * v.x + v.y * v.y + v.z * v.z)

/-- cgmath `InnerSpace::normalize`: `v * (1 / |v|)`. -/
noncomputable def normalize (v : Vec3 ℝ) : Vec3 ℝ := smul (1 / v.magnitude) v

end Vec3

/-- cgmath's degree-to-radian conversion `Rad::from(Deg(d))`:
`d * (π / 180)`. -/
noncomputable def degToRad (d : ℝ) : ℝ := d * (Real.pi / 180)

/-- `Camera` (src/camera.rs): position, derived basis vectors, world up,
yaw/pitch in radians, vertical field of view in degrees. -/
structure Camera where
  position : Vec3 ℝ
  front : Vec3 ℝ
  up : Vec3 ℝ
  right : Vec3 ℝ
  world_up : Vec3 ℝ
  yaw : ℝ
  pitch : ℝ
  fovy : ℝ

/-- `Camera::default` (src/camera.rs lines 37-60): origin position,
front `-z`, up `+y`, yaw `-90°`, pitch `0`, fovy `90°`,
`right = normalize(front × world_up)`. -/
noncomputable def Camera.default : Camera :=
  let position : Vec3 ℝ := Vec3.zero
  let front := Vec3.neg (Vec3.unit_z : Vec3 ℝ)
  let up : Vec3 ℝ := Vec3.unit_y
  let world_up := up
  let yaw := degToRad (-90)
  let pitch : ℝ := 0
  let fovy : ℝ := 90
  let right := (front.cross world_up).normalize
  { position := position, front := front, up := up, right := right,
    world_up := world_up, yaw := yaw, pitch := pitch, fovy := fovy }

/-- `CameraController` (src/camera.rs): four directional impulses,
pending mouse deltas, speed and sensitivity. -/
structure CameraController where
  left : ℝ
  right : ℝ
  forward : ℝ
  backward : ℝ
  rotate_horizontal : ℝ
  rotate_vertical : ℝ
  speed : ℝ
  sensitivity : ℝ

/-- `CameraController::default` (src/camera.rs lines 122-135): all
impulses and deltas zero, speed `2.5`, sensitivity `1.0`. -/
def CameraController.default : CameraController :=
  { left := 0, right := 0, forward := 0, backward := 0,
    rotate_horizontal := 0, rotate_vertical := 0,
    speed := 2.5, sensitivity := 1 }

/-- The subset of `winit::keyboard::KeyCode` the controller reacts to;
`other` stands for every other key. -/
inductive KeyCode where
  | keyW
  | keyS
  | keyA
  | keyD
  | other
deriving DecidableEq

/-- `winit::event::ElementState`. -/
inductive ElementState where
  | pressed
  | released
deriving DecidableEq

/-- `CameraController::handle_keyboard` (src/camera.rs lines 74-95):
sets the matching impulse to `1.0` on press and `0.0` on release;
unrecognized keys are no-ops. -/
def CameraController.handle_keyboard (c : CameraController) (key : KeyCode)
    (state : ElementState) : CameraController :=
  let amount : ℝ := if state = ElementState.pressed then 1 else 0
  match key with
  | KeyCode.keyW => { c with forward := amount }
  | KeyCode.keyS => { c with backward := amount }
  | KeyCode.keyA => { c with left := amount }
  | KeyCode.keyD => { c with right := amount }
  | KeyCode.other => c

/-- `CameraController::handle_mouse_motion` (src/camera.rs lines
97-100): stores the raw deltas, overwriting unconsumed ones. -/
def CameraController.handle_mouse_motion (c : CameraController) (dx dy : ℝ) :
    CameraController :=
  { c with rotate_horizontal := dx, rotate_vertical := dy }

/-- `CameraController::update_camera` (src/camera.rs lines 102-119):
advances position along the old front/right vectors, integrates yaw and
pitch from the pending mouse deltas, wraps yaw with the float remainder
`% (PI * 2.0)`, clamps pitch into `±(FRAC_PI_2 - 0.0001)`, zeroes the
consumed mouse deltas, and recomputes the front/right/up basis. -/
noncomputable def CameraController.update_camera (c : CameraController)
    (camera : Camera) (dt : ℝ) : CameraController × Camera :=
  let position1 :=
    camera.position.add (Vec3.smul ((c.forward - c.backward) * c.speed * dt) camera.front)
  let position2 :=
    position1.add (Vec3.smul ((c.right - c.left) * c.speed * dt) camera.right)
  let new_yaw := camera.yaw + c.rotate_horizontal * c.sensitivity * dt
  let new_pitch := camera.pitch - c.rotate_vertical * c.sensitivity * dt
  let yaw2 := rustRem new_yaw (Real.pi * 2)
  let pitch2 := rustClamp new_pitch (-(Real.pi / 2 - 0.0001)) (Real.pi / 2 - 0.0001)
  let front2 := (Vec3.mk (Real.cos yaw2 * Real.cos pitch2) (Real.sin pitch2)
    (Real.sin yaw2 * Real.cos pitch2)).normalize
  let right2 := (front2.cross camera.world_up).normalize
  let up2 := (right2.cross front2).normalize
  ({ c with rotate_horizontal := 0, rotate_vertical := 0 },
   { camera with position := position2, yaw := yaw2, pitch := pitch2,
                 front := front2, right := right2, up := up2 })

/-- `CameraWrapper` (src/camera.rs): the camera together with its
controller. -/
structure CameraWrapper where
  camera : Camera
  camera_controller : CameraController

/-- `CameraWrapper::update` (src/camera.rs lines 152-154): runs the
controller's integration step on the owned camera. -/
noncomputable def CameraWrapper.update (w : CameraWrapper) (dt : ℝ) : CameraWrapper :=
  let r := w.camera_controller.update_camera w.camera dt
  { camera := r.2, camera_controller := r.1 }

/-! ## Entity transforms (`src/entity.rs`)

cgmath `Matrix4` is column-major; `Mat4` below stores the four columns.
The model-matrix claims evaluate at concrete rational inputs, so these
are parametric in the scalar and used at `ℚ` (decidable) and `ℝ`. -/

/-- A 4-component vector (cgmath `Vector4`), also used as a matrix
column. -/
@[ext]
structure Vec4 (α : Type) where
  x : α
  y : α
  z : α
  w : α
deriving DecidableEq

namespace Vec4

variable {α : Type} [CommRing α]

def add (v u : Vec4 α) : Vec4 α := ⟨v.x + u.x, v.y + u.y, v.z + u.z, v.w + u.w⟩

def smul (c : α) (v : Vec4 α) : Vec4 α := ⟨c * v.x, c * v.y, c * v.z, c * v.w⟩

/-- cgmath swizzle `Vector4::xyz`. -/
def xyz (v : Vec4 α) : Vec3 α := ⟨v.x, v.y, v.z⟩

end Vec4

/-- cgmath `Matrix4`, stored as its four columns `x y z w`. -/
@[ext]
structure Mat4 (α : Type) where
  x : Vec4 α
  y : Vec4 α
  z : Vec4 α
  w : Vec4 α
deriving DecidableEq

namespace Mat4

variable {α : Type} [CommRing α]

/-- Matrix-vector product: the linear combination of the columns. -/
def mulVec (m : Mat4 α) (v : Vec4 α) : Vec4 α :=
  (Vec4.smul v.x m.x).add ((Vec4.smul v.y m.y).add
    ((Vec4.smul v.z m.z).add (Vec4.smul v.w m.w)))

/-- Matrix product (cgmath `Matrix4 * Matrix4`). -/
def mul (a b : Mat4 α) : Mat4 α :=
  ⟨a.mulVec b.x, a.mulVec b.y, a.mulVec b.z, a.mulVec b.w⟩

/-- cgmath `Matrix4::identity`. -/
def identity : Mat4 α :=
  ⟨⟨1, 0, 0, 0⟩, ⟨0, 1, 0, 0⟩, ⟨0, 0, 1, 0⟩, ⟨0, 0, 0, 1⟩⟩

/-- cgmath `Matrix4::from_translation(v)`: identity with `(v, 1)` as the
last column. -/
def from_translation (v : Vec3 α) : Mat4 α :=
  ⟨⟨1, 0, 0, 0⟩, ⟨0, 1, 0, 0⟩, ⟨0, 0, 1, 0⟩, ⟨v.x, v.y, v.z, 1⟩⟩

/-- cgmath `Matrix4::from_nonuniform_scale(sx, sy, sz)`. -/
def from_nonuniform_scale (sx sy sz : α) : Mat4 α :=
  ⟨⟨sx, 0, 0, 0⟩, ⟨0, sy, 0, 0⟩, ⟨0, 0, sz, 0⟩, ⟨0, 0, 0, 1⟩⟩

end Mat4

/-- cgmath `Quaternion`: scalar part `s` and vector part `(x, y, z)`. -/
@[ext]
structure Quat (α : Type) where
  s : α
  x : α
  y : α
  z : α
deriving DecidableEq

/-- cgmath `impl From<Quaternion> for Matrix4`: the standard
quaternion-to-rotation-matrix conversion, columns written exactly as in
cgmath's `Matrix4::new` call. -/
def Mat4.fromQuaternion {α : Type} [CommRing α] (q : Quat α) : Mat4 α :=
  let x2 := q.x + q.x
  let y2 := q.y + q.y
  let z2 := q.z + q.z
  let xx2 := x2 * q.x
  let xy2 := x2 * q.y
  let xz2 := x2 * q.z
  let yy2 := y2 * q.y
  let yz2 := y2 * q.z
  let zz2 := z2 * q.z
  let sy2 := y2 * q.s
  let sz2 := z2 * q.s
  let sx2 := x2 * q.s
  ⟨⟨1 - yy2 - zz2, xy2 + sz2, xz2 - sy2, 0⟩,
   ⟨xy2 - sz2, 1 - xx2 - zz2, yz2 + sx2, 0⟩,
   ⟨xz2 + sy2, yz2 - sx2, 1 - xx2 - yy2, 0⟩,
   ⟨0, 0, 0, 1⟩⟩

/-- `Entity` (src/entity.rs): owned mesh plus position, rotation
quaternion and non-uniform scale. -/
structure Entity (α : Type) where
  mesh : Mesh
  position : Vec3 α
  rotation : Quat α
  scale : Vec3 α

/-- `Entity::get_model_matrix` (src/entity.rs lines 47-55): starts from
the identity and right-multiplies translation, then non-uniform scale,
then rotation: `M = I · T · S · R`. -/
def Entity.get_model_matrix {α : Type} [CommRing α] (e : Entity α) : Mat4 α :=
  let model := Mat4.identity
  let model := model.mul (Mat4.from_translation e.position)
  let model := model.mul (Mat4.from_nonuniform_scale e.scale.x e.scale.y e.scale.z)
  let model := model.mul (Mat4.fromQuaternion e.rotation)
  model

/-- `Entity::get_normal_matrix` (src/entity.rs lines 56-58): the
rotation alone. -/
def Entity.get_normal_matrix {α : Type} [CommRing α] (e : Entity α) : Mat4 α :=
  Mat4.fromQuaternion e.rotation

/-- The entity of the first concrete model-matrix check: position
`(1,2,3)`, identity rotation, scale `(1,1,1)`. -/
def translationEntity : Entity ℚ :=
  { mesh := Mesh.empty, position := ⟨1, 2, 3⟩, rotation := ⟨1, 0, 0, 0⟩,
    scale := ⟨1, 1, 1⟩ }

/-- The entity of the second concrete model-matrix check: zero position,
identity rotation, scale `(2,2,2)`. -/
def scaleEntity : Entity ℚ :=
  { mesh := Mesh.empty, position := ⟨0, 0, 0⟩, rotation := ⟨1, 0, 0, 0⟩,
    scale := ⟨2, 2, 2⟩ }

/-! ## Point light (`src/light.rs`) and the frame loop (`src/app.rs`) -/

/-- `PointLight` (src/light.rs): homogeneous position and ambient
color. -/
structure PointLight where
  position : Vec4 ℝ
  ambient_color : Vec3 ℝ

/-- `PointLight::new`. -/
def PointLight.new (position : Vec4 ℝ) (ambient_color : Vec3 ℝ) : PointLight :=
  ⟨position, ambient_color⟩

/-- `EntityWrapper` (src/entity.rs): an entity together with its
uploaded GPU mesh data, of which only the retained draw-call length
`index_len` is value-relevant. -/
structure EntityWrapper where
  entity : Entity ℝ
  index_len : ℕ

/-- `EntityWrapper::new` (src/entity.rs lines 13-16): uploads the mesh;
`Mesh::to_mesh_data` records `index_len = indices.len()`. -/
def EntityWrapper.new (e : Entity ℝ) : EntityWrapper :=
  ⟨e, e.mesh.indices.length⟩

/-- `EntityWrapper::update_entity_position` (src/entity.rs lines
18-20). -/
def EntityWrapper.update_entity_position (w : EntityWrapper) (pos : Vec3 ℝ) :
    EntityWrapper :=
  { w with entity := { w.entity with position := pos } }

/-- `wgpu::SurfaceError`, the error type of frame acquisition. -/
inductive SurfaceError where
  | timeout
  | outdated
  | lost
  | outOfMemory
  | other
deriving DecidableEq

/-- One GPU/window operation issued by `AppState::render`, for the
operation log of the render model. -/
inductive GpuOp where
  | requestRedraw
  | acquireFrame
  | beginRenderPass
  | drawIndexed (index_len : ℕ)
  | submit
  | present
deriving DecidableEq

/-- The surface configuration dimensions (`wgpu::SurfaceConfiguration`
width/height, `u32`). -/
structure SurfaceConfig where
  width : ℕ
  height : ℕ
deriving DecidableEq

/-- The value-level state of `AppState` (src/app.rs): the surface
configuration and its configured flag, the depth-texture size, the
entity list and the camera rig.  Device, queue, pipelines and buffers
are GPU handles with no value-level content; buffer writes are modelled
by returning the written data. -/
structure AppState where
  surface_config : SurfaceConfig
  is_surface_configured : Bool
  depth_texture_size : SurfaceConfig
  entities : List EntityWrapper
  camera_wrapper : CameraWrapper

/-- `AppState::resize` (src/app.rs lines 407-416): clamps both
dimensions to a minimum of 1, reconfigures the surface, marks it
configured, and rebuilds the depth texture at the new surface size. -/
def AppState.resize (s : AppState) (width height : ℕ) : AppState :=
  let width := max width 1
  let height := max height 1
  { s with surface_config := ⟨width, height⟩,
           is_surface_configured := true,
           depth_texture_size := ⟨width, height⟩ }

/-- `AppState::render` (src/app.rs lines 417-488): requests a redraw,
then — if the surface is not yet configured — returns `Ok(())` without
touching anything else.  Otherwise it acquires a frame (propagating an
acquisition error with `?`), records one render pass issuing one
indexed draw of `index_len` indices per entity in order, submits and
presents.  The acquisition outcome is an input; the issued operations
are returned as a log alongside the result and the (unchanged)
state. -/
def AppState.render (s : AppState) (acquire : Except SurfaceError Unit) :
    Except SurfaceError Unit × AppState × List GpuOp :=
  if !s.is_surface_configured then
    (Except.ok (), s, [GpuOp.requestRedraw])
  else
    match acquire with
    | Except.error e => (Except.error e, s, [GpuOp.requestRedraw, GpuOp.acquireFrame])
    | Except.ok _ =>
        (Except.ok (), s,
          [GpuOp.requestRedraw, GpuOp.acquireFrame, GpuOp.beginRenderPass] ++
            (s.entities.map fun w => GpuOp.drawIndexed w.index_len) ++
            [GpuOp.submit, GpuOp.present])

/-- `AppState::update` (src/app.rs lines 489-528): recomputes the point
light on its orbit from the elapsed wall-clock seconds
(`Deg(100.0 * t)`, converted to radians by cgmath's `sin_cos`), writes
the light uniform, re-parents entity 0's position to the light position,
recomputes and uploads every entity's instance data, and advances the
camera rig by `dt`.  The elapsed time is an input (the code reads
`Instant::now()`); the light whose uniform is written is returned
alongside the new state. -/
noncomputable def AppState.update (s : AppState) (time_since_start dt : ℝ) :
    PointLight × AppState :=
  let sc := Real.sin (degToRad (100 * time_since_start))
  let cc := Real.cos (degToRad (100 * time_since_start))
  let point_light := PointLight.new ⟨sc * 0.5 + 1.5, 0.2, cc * 0.5 - 1.5, 1.0⟩ ⟨0.3, 0.3, 0.3⟩
  let entities :=
    match s.entities with
    | [] => []
    | e0 :: rest => e0.update_entity_position point_light.position.xyz :: rest
  (point_light,
   { s with entities := entities, camera_wrapper := s.camera_wrapper.update dt })

/-- A concrete configured-later app state used by the witnesses: one
entity (the light cube placeholder), surface not yet configured. -/
noncomputable def demoAppState : AppState :=
  { surface_config := ⟨800, 600⟩
    is_surface_configured := false
    depth_texture_size := ⟨800, 600⟩
    entities := [EntityWrapper.new
      { mesh := cubeMesh, position := Vec3.zero, rotation := ⟨1, 0, 0, 0⟩,
        scale := ⟨0.01, 0.01, 0.01⟩ }]
    camera_wrapper := { camera := Camera.default,
                        camera_controller := CameraController.default } }

/-! ## Counting helper -/

/-- Length of a `flatMap` whose pieces all have the same length. -/
theorem length_flatMap_const {α β : Type} (l : List α) (f : α → List β) (c : ℕ)
    (h : ∀ a ∈ l, (f a).length = c) :
    (l.flatMap f).length = l.length * c := by
  induction l with
  | nil => simp
  | cons a l ih =>
      simp only [List.flatMap_cons, List.length_append, List.length_cons]
      rw [h a (List.mem_cons_self a l), ih fun b hb => h b (List.mem_cons_of_mem a hb)]
      ring

/-! ## Remainder and clamp range lemmas -/

/-- The sign-preserving float remainder lies strictly between `-b` and
`b` for a positive modulus `b`. -/
theorem rustRem_bounds (a b : ℝ) (hb : 0 < b) :
    -b < rustRem a b ∧ rustRem a b < b := by
  have hbne : b ≠ 0 := ne_of_gt hb
  have ha : b * (a / b) = a := by field_simp
  rcases le_or_lt 0 (a / b) with h | h
  · have hfl : (⌊a / b⌋ : ℝ) ≤ a / b := Int.floor_le _
    have hfl2 : a / b < ⌊a / b⌋ + 1 := Int.lt_floor_add_one _
    have hrem : rustRem a b = b * (a / b - ⌊a / b⌋) := by
      unfold rustRem rtruncR
      rw [if_pos h, mul_sub, ha]
    have h1 : 0 ≤ b * (a / b - ⌊a / b⌋) :=
      mul_nonneg hb.le (by linarith)
    have h2 : b * (a / b - ⌊a / b⌋) < b * 1 :=
      mul_lt_mul_of_pos_left (by linarith) hb
    rw [hrem]
    constructor <;> linarith
  · have hce : a / b ≤ (⌈a / b⌉ : ℝ) := Int.le_ceil _
    have hce2 : (⌈a / b⌉ : ℝ) < a / b + 1 := Int.ceil_lt_add_one _
    have hrem : rustRem a b = b * (a / b - ⌈a / b⌉) := by
      unfold rustRem rtruncR
      rw [if_neg (not_le.mpr h), mul_sub, ha]
    have h1 : b * (a / b - ⌈a / b⌉) ≤ 0 :=
      mul_nonpos_of_nonneg_of_nonpos hb.le (by linarith)
    have h2 : b * (-1) < b * (a / b - ⌈a / b⌉) :=
      mul_lt_mul_of_pos_left (by linarith) hb
    rw [hrem]
    constructor <;> linarith

/-- `num_traits::clamp` lands in `[min, max]` whenever `min ≤ max`. -/
theorem rustClamp_mem (x lo hi : ℝ) (h : lo ≤ hi) :
    lo ≤ rustClamp x lo hi ∧ rustClamp x lo hi ≤ hi := by
  unfold rustClamp
  split_ifs with h1 h2
  · exact ⟨le_refl _, h⟩
  · exact ⟨h, le_refl _⟩
  · exact ⟨le_of_not_lt h1, le_of_not_lt h2⟩

/-! ## Camera claims -/

/-- C1 (counterexample): starting from the default camera (yaw `-90°`)
and the default controller (no pending input), the yaw after
`update_camera` is `-π/2`, which is *not* in the claimed canonical range
`[0, 2π)`: Rust's `%` keeps the dividend's sign. -/
theorem update_camera_yaw_not_canonical :
    ¬ (0 ≤ (CameraController.default.update_camera Camera.default 1).2.yaw ∧
       (CameraController.default.update_camera Camera.default 1).2.yaw < 2 * Real.pi) := by
  intro hcontra
  have hy : (CameraController.default.update_camera Camera.default 1).2.yaw
      = rustRem (degToRad (-90) + 0 * 1 * 1) (Real.pi * 2) := rfl
  have harg : degToRad (-90) + 0 * 1 * 1 = -(Real.pi / 2) := by
    unfold degToRad; ring
  have hdiv : -(Real.pi / 2) / (Real.pi * 2) = -(1 / 4 : ℝ) := by
    rw [div_eq_iff (by positivity : Real.pi * 2 ≠ 0)]
    ring
  have hceil : ⌈(-(1 / 4) : ℝ)⌉ = 0 := by
    rw [Int.ceil_eq_iff]
    push_cast
    norm_num
  have hrem : rustRem (-(Real.pi / 2)) (Real.pi * 2) = -(Real.pi / 2) := by
    unfold rustRem rtruncR
    rw [hdiv, if_neg (by norm_num), hceil]
    norm_num
  rw [hy, harg, hrem] at hcontra
  have := hcontra.1
  linarith [Real.pi_pos]

/-- C1 (amended): for every controller state, camera state and frame
time, the yaw after `update_camera` lies in the open interval
`(-2π, 2π)` — the float remainder `% (2π)` preserves the dividend's
sign, so the wrapped range is symmetric rather than the canonical
`[0, 2π)`. -/
theorem update_camera_yaw_wrapped (c : CameraController) (camera : Camera) (dt : ℝ) :
    -(2 * Real.pi) < (c.update_camera camera dt).2.yaw ∧
    (c.update_camera camera dt).2.yaw < 2 * Real.pi := by
  have hy : (c.update_camera camera dt).2.yaw
      = rustRem (camera.yaw + c.rotate_horizontal * c.sensitivity * dt) (Real.pi * 2) := rfl
  have h := rustRem_bounds (camera.yaw + c.rotate_horizontal * c.sensitivity * dt)
    (Real.pi * 2) (by positivity)
  rw [hy]
  constructor <;> linarith [h.1, h.2]

/-- C2: for every controller state, camera state and frame time, the
pitch after `update_camera` is strictly inside `(-π/2, π/2)`: the clamp
bound `π/2 - 0.0001` keeps an epsilon margin below the poles. -/
theorem update_camera_pitch_strict (c : CameraController) (camera : Camera) (dt : ℝ) :
    -(Real.pi / 2) < (c.update_camera camera dt).2.pitch ∧
    (c.update_camera camera dt).2.pitch < Real.pi / 2 := by
  have hp : (c.update_camera camera dt).2.pitch
      = rustClamp (camera.pitch - c.rotate_vertical * c.sensitivity * dt)
          (-(Real.pi / 2 - 0.0001)) (Real.pi / 2 - 0.0001) := rfl
  have hb : (0.0001 : ℝ) < Real.pi / 2 := by
    nlinarith [Real.pi_gt_three]
  have h := rustClamp_mem (camera.pitch - c.rotate_vertical * c.sensitivity * dt)
    (-(Real.pi / 2 - 0.0001)) (Real.pi / 2 - 0.0001) (by linarith)
  rw [hp]
  constructor <;> linarith [h.1, h.2]

/-- C9: every `update_camera` call zeroes both consumed mouse deltas and
leaves the four directional impulses untouched; the impulses are only
cleared by a key-release event through `handle_keyboard`. -/
theorem update_camera_consumes_deltas (c : CameraController) (camera : Camera) (dt : ℝ) :
    ((c.update_camera camera dt).1.rotate_horizontal = 0 ∧
     (c.update_camera camera dt).1.rotate_vertical = 0) ∧
    ((c.update_camera camera dt).1.forward = c.forward ∧
     (c.update_camera camera dt).1.backward = c.backward ∧
     (c.update_camera camera dt).1.left = c.left ∧
     (c.update_camera camera dt).1.right = c.right) ∧
    ((c.handle_keyboard KeyCode.keyW ElementState.released).forward = 0 ∧
     (c.handle_keyboard KeyCode.keyS ElementState.released).backward = 0 ∧
     (c.handle_keyboard KeyCode.keyA ElementState.released).left = 0 ∧
     (c.handle_keyboard KeyCode.keyD ElementState.released).right = 0) :=
  ⟨⟨rfl, rfl⟩, ⟨rfl, rfl, rfl, rfl⟩, ⟨rfl, rfl, rfl, rfl⟩⟩

/-! ## Entity transform claims -/

/-- Left multiplication by the cgmath identity matrix is the
identity. -/
theorem mat4_identity_mul {α : Type} [CommRing α] (m : Mat4 α) :
    Mat4.identity.mul m = m := by
  ext <;>
    simp [Mat4.mul, Mat4.mulVec, Mat4.identity, Vec4.add, Vec4.smul]

/-- C3: the model matrix is the fixed composition `T · S · R`
(translation, then non-uniform scale, then rotation) for every entity;
at position `(1,2,3)`, identity rotation, scale `(1,1,1)` it is the pure
translation matrix, and at zero position, identity rotation, scale
`(2,2,2)` it is the pure scale matrix. -/
theorem get_model_matrix_TSR :
    (∀ e : Entity ℚ, e.get_model_matrix =
      ((Mat4.from_translation e.position).mul
        (Mat4.from_nonuniform_scale e.scale.x e.scale.y e.scale.z)).mul
        (Mat4.fromQuaternion e.rotation)) ∧
    translationEntity.get_model_matrix =
      ⟨⟨1, 0, 0, 0⟩, ⟨0, 1, 0, 0⟩, ⟨0, 0, 1, 0⟩, ⟨1, 2, 3, 1⟩⟩ ∧
    scaleEntity.get_model_matrix =
      ⟨⟨2, 0, 0, 0⟩, ⟨0, 2, 0, 0⟩, ⟨0, 0, 2, 0⟩, ⟨0, 0, 0, 1⟩⟩ := by
  have hgen : ∀ e : Entity ℚ, e.get_model_matrix =
      ((Mat4.from_translation e.position).mul
        (Mat4.from_nonuniform_scale e.scale.x e.scale.y e.scale.z)).mul
        (Mat4.fromQuaternion e.rotation) := by
    intro e
    show ((Mat4.identity.mul (Mat4.from_translation e.position)).mul
        (Mat4.from_nonuniform_scale e.scale.x e.scale.y e.scale.z)).mul
        (Mat4.fromQuaternion e.rotation) = _
    rw [mat4_identity_mul]
  refine ⟨hgen, ?_, ?_⟩
  · rw [hgen]
    simp only [translationEntity, Mat4.mul, Mat4.mulVec, Mat4.from_translation,
      Mat4.from_nonuniform_scale, Mat4.fromQuaternion, Vec4.add, Vec4.smul]
    norm_num
  · rw [hgen]
    simp only [scaleEntity, Mat4.mul, Mat4.mulVec, Mat4.from_translation,
      Mat4.from_nonuniform_scale, Mat4.fromQuaternion, Vec4.add, Vec4.smul]
    norm_num

/-! ## Mesh generation claims -/

/-- C5: `generate_cube` on the empty mesh yields exactly 24 vertices and
36 indices, every index is `< 24`, and each face `f < 6` is triangulated
as `(4f, 4f+1, 4f+2)` and `(4f+2, 4f+3, 4f)`: the two triangles share
the diagonal between the face's corners 0 and 2, traversed in opposite
directions (consistent winding), and the four corner positions of each
face are pairwise distinct. -/
theorem generate_cube_spec :
    cubeMesh.vertices.length = 24 ∧
    cubeMesh.indices.length = 36 ∧
    (∀ i ∈ cubeMesh.indices, i < 24) ∧
    (∀ f < 6,
      cubeMesh.indices.getD (6 * f) 0 = 4 * f ∧
      cubeMesh.indices.getD (6 * f + 1) 0 = 4 * f + 1 ∧
      cubeMesh.indices.getD (6 * f + 2) 0 = 4 * f + 2 ∧
      cubeMesh.indices.getD (6 * f + 3) 0 = cubeMesh.indices.getD (6 * f + 2) 0 ∧
      cubeMesh.indices.getD (6 * f + 4) 0 = 4 * f + 3 ∧
      cubeMesh.indices.getD (6 * f + 5) 0 = cubeMesh.indices.getD (6 * f) 0 ∧
      ([(cubeMesh.vertices.getD (4 * f) (Mesh.cubeVertex 0 0 0 0 0 0 0 0)).pos,
        (cubeMesh.vertices.getD (4 * f + 1) (Mesh.cubeVertex 0 0 0 0 0 0 0 0)).pos,
        (cubeMesh.vertices.getD (4 * f + 2) (Mesh.cubeVertex 0 0 0 0 0 0 0 0)).pos,
        (cubeMesh.vertices.getD (4 * f + 3) (Mesh.cubeVertex 0 0 0 0 0 0 0 0)).pos].Pairwise
        (fun a b => a ≠ b))) := by
  decide

/-- C10: `generate_plane` at resolution 0 on the empty mesh does not
fail: it appends exactly one vertex and no indices. -/
theorem generate_plane_zero :
    (Mesh.empty.generate_plane 0).vertices.length = 1 ∧
    (Mesh.empty.generate_plane 0).indices.length = 0 := by
  decide

/-- C6: for every resolution `R ≥ 1`, `generate_plane` on the empty mesh
yields exactly `(R+1)²` vertices and `6·R²` indices (two triangles per
grid cell). -/
theorem generate_plane_counts (R : ℕ) (_h : 1 ≤ R) :
    (Mesh.empty.generate_plane R).vertices.length = (R + 1) ^ 2 ∧
    (Mesh.empty.generate_plane R).indices.length = 6 * R ^ 2 := by
  constructor
  · simp only [Mesh.generate_plane, Mesh.empty, List.nil_append, List.length_map]
    refine (length_flatMap_const _ _ (R + 1) ?_).trans ?_
    · intro a _
      simp
    · rw [List.length_range, pow_two]
  · simp only [Mesh.generate_plane, Mesh.empty, List.nil_append]
    refine (length_flatMap_const _ _ (R * 6) ?_).trans ?_
    · intro a _
      refine (length_flatMap_const _ _ 6 ?_).trans ?_
      · intro b _
        rfl
      · rw [List.length_range]
    · rw [List.length_range, pow_two]
      ring

/-- C6 witness: instantiated at resolution 3. -/
theorem generate_plane_counts_witness :
    1 ≤ 3 ∧
    ((Mesh.empty.generate_plane 3).vertices.length = (3 + 1) ^ 2 ∧
     (Mesh.empty.generate_plane 3).indices.length = 6 * 3 ^ 2) :=
  ⟨by decide, generate_plane_counts 3 (by decide)⟩

/-! ## Frame loop claims -/

/-- C4: `update` recomputes the point light purely from the elapsed
seconds `t` as the XZ-plane orbit
`(sin(100°·t)·0.5 + 1.5, 0.2, cos(100°·t)·0.5 − 1.5, 1.0)` (angle in
degrees converted to radians), and entity 0's position afterwards equals
the light position's xyz exactly. -/
theorem update_light_orbit_sync (s : AppState) (t dt : ℝ) (h : s.entities ≠ []) :
    (s.update t dt).1.position =
      ⟨Real.sin (100 * t * (Real.pi / 180)) * 0.5 + 1.5, 0.2,
       Real.cos (100 * t * (Real.pi / 180)) * 0.5 - 1.5, 1.0⟩ ∧
    ((s.update t dt).2.entities.map fun w => w.entity.position).head? =
      some (s.update t dt).1.position.xyz := by
  obtain ⟨cfg, conf, depth, ents, cw⟩ := s
  cases ents with
  | nil => exact absurd rfl h
  | cons e0 rest =>
      constructor
      · rfl
      · simp [AppState.update, EntityWrapper.update_entity_position, Vec4.xyz]

/-- C4 witness: instantiated at elapsed time 0, dt 0, on the one-entity
demo state. -/
theorem update_light_orbit_sync_witness :
    demoAppState.entities ≠ [] ∧
    ((demoAppState.update 0 0).1.position =
      ⟨Real.sin (100 * 0 * (Real.pi / 180)) * 0.5 + 1.5, 0.2,
       Real.cos (100 * 0 * (Real.pi / 180)) * 0.5 - 1.5, 1.0⟩ ∧
     ((demoAppState.update 0 0).2.entities.map fun w => w.entity.position).head? =
      some (demoAppState.update 0 0).1.position.xyz) :=
  ⟨List.cons_ne_nil _ _,
   update_light_orbit_sync demoAppState 0 0 (List.cons_ne_nil _ _)⟩

/-- C7: `resize` clamps both requested dimensions to a minimum of 1
before reconfiguring (so a `(0,0)` request yields a `(1,1)` surface
configuration, never a zero-sized one), rebuilds the depth buffer at the
same clamped size, and always leaves the loop in the Configured
state. -/
theorem resize_clamps_and_configures (s : AppState) (width height : ℕ) :
    1 ≤ (s.resize width height).surface_config.width ∧
    1 ≤ (s.resize width height).surface_config.height ∧
    (s.resize width height).is_surface_configured = true ∧
    (s.resize width height).depth_texture_size = (s.resize width height).surface_config ∧
    (s.resize 0 0).surface_config = ⟨1, 1⟩ :=
  ⟨le_max_right _ _, le_max_right _ _, rfl, rfl, rfl⟩

/-- C8: when the surface is not yet configured, `render` returns success
after only the redraw request: the state is unchanged and the operation
log contains no frame acquisition and no draw call. -/
theorem render_unconfigured_noop (s : AppState) (acquire : Except SurfaceError Unit)
    (h : s.is_surface_configured = false) :
    s.render acquire = (Except.ok (), s, [GpuOp.requestRedraw]) ∧
    GpuOp.acquireFrame ∉ (s.render acquire).2.2 ∧
    ∀ n : ℕ, GpuOp.drawIndexed n ∉ (s.render acquire).2.2 := by
  have hr : s.render acquire = (Except.ok (), s, [GpuOp.requestRedraw]) := by
    unfold AppState.render
    rw [h]
    rfl
  refine ⟨hr, ?_, ?_⟩
  · rw [hr]
    simp
  · intro n
    rw [hr]
    simp

/-- C8 witness: instantiated on the unconfigured demo state with a
successful acquisition oracle. -/
theorem render_unconfigured_noop_witness :
    demoAppState.is_surface_configured = false ∧
    (demoAppState.render (Except.ok ()) =
      (Except.ok (), demoAppState, [GpuOp.requestRedraw]) ∧
     GpuOp.acquireFrame ∉ (demoAppState.render (Except.ok ())).2.2 ∧
     ∀ n : ℕ, GpuOp.drawIndexed n ∉ (demoAppState.render (Except.ok ())).2.2) :=
  ⟨rfl, render_unconfigured_noop demoAppState (Except.ok ()) rfl⟩
